import Mathlib

/-! Verification development for the walmart_customer_behavior_insights
repository. The two Python modules are shallowly embedded:

* `Printing` models src/utils/printing.py (print_dataframe): validation of the
  justification mode, the empty notice, head-wise truncation, per-cell
  formatting decisions, the caption chain and the trailing shape notice.
  Console output is modeled as the returned list of print events; raising
  ValueError is modeled as an Except error, which carries no events.
* `Insights` models src/data_insights.py (class DataInsights): the missing
  values analysis, the dtype partition, the numeric summary with its three
  appended rows, the categorical summary and the strong-correlation scan.
  Each analysis method is a state transformer returning the owned table and
  the data it prints.

Machine floats of the Python source are modeled as exact rationals. The
irrational square roots that pandas takes (standard deviations, hence also the
skew and kurtosis normalizations and the correlation coefficients) enter the
model as certified parameters: a value std with std ^ 2 equal to the sample
variance, or a correlation matrix passed as a function argument. -/

namespace Printing

/-- Cell values that can appear in a pandas DataFrame handed to the printer:
missing values, floats, ints, and other values rendered via str. -/
inductive PVal
  | na
  | float (x : ℚ)
  | int (n : Int)
  | other (s : String)
deriving DecidableEq

/-- Result of the per-cell formatting of print_dataframe lines 92-101. The
branch taken is recorded structurally: fixed 4-decimal rendering, scientific
rendering with 2 digits, or the plain str form. No claim inspects the digit
glyphs themselves, so the chosen branch together with the value determines the
rendered cell. -/
inductive FmtCell
  | nan
  | fixed4 (x : ℚ)
  | sci2 (x : ℚ)
  | plainInt (n : Int)
  | plainStr (s : String)
  | plainFloat (x : ℚ)
deriving DecidableEq

/-- A pandas DataFrame as the printer sees it: ordered column headers paired
with their is_numeric_dtype flag, and rows carrying an index label followed by
the cell values. -/
structure PDFrame where
  headers : List (String × Bool)
  rows : List (String × List PVal)
deriving DecidableEq

def PDFrame.nRows (df : PDFrame) : Nat := df.rows.length

def PDFrame.nCols (df : PDFrame) : Nat := df.headers.length

/-- pandas df.empty: true when either axis has length zero. -/
def PDFrame.empty (df : PDFrame) : Bool := df.nRows == 0 || df.nCols == 0

/-- Python truthiness of an Optional[int] argument: None and 0 are falsy. -/
def truthy (o : Option Int) : Bool :=
  match o with
  | none => false
  | some n => n != 0

def intOf (o : Option Int) : Int := o.getD 0

/-- Python slicing l[:n], as used by df.head(n) and iloc[:, :n]: the first n
elements for nonnegative n, everything but the last |n| for negative n. -/
def pyTake {α : Type} (n : Int) (l : List α) : List α :=
  if 0 ≤ n then l.take n.toNat else l.take (l.length - (-n).toNat)

/-- Lines 51-56: display_df is df.head(max_rows) when max_rows is truthy, then
cut to the first max_cols columns when max_cols is truthy. -/
def displayOf (df : PDFrame) (mr mc : Option Int) : PDFrame :=
  let afterRows : PDFrame :=
    if truthy mr then { df with rows := pyTake (intOf mr) df.rows } else df
  if truthy mc then
    { headers := pyTake (intOf mc) afterRows.headers,
      rows := afterRows.rows.map (fun r => (r.1, pyTake (intOf mc) r.2)) }
  else afterRows

/-- Lines 92-101: format one cell, keyed on the numeric-dtype flag of its
column. NaN gets the dimmed marker; a float in a numeric column renders with 4
decimals below magnitude 1000 and in scientific form otherwise; everything
else renders via str. -/
def formatCell (isNum : Bool) (v : PVal) : FmtCell :=
  match v with
  | .na => .nan
  | .float x =>
      if isNum then (if |x| < 1000 then .fixed4 x else .sci2 x) else .plainFloat x
  | .int n => .plainInt n
  | .other s => .plainStr s

/-- The Rich table assembled by print_dataframe: title, columns as header text
paired with the justification chosen once per column, the formatted body cells
and the optional caption. -/
structure RichTable where
  title : Option String
  columns : List (String × String)
  cells : List (List FmtCell)
  caption : Option String
deriving DecidableEq

/-- One console.print call: either a plain text line or a rendered table. -/
inductive PEvent
  | text (s : String)
  | table (t : RichTable)
deriving DecidableEq

/-- The single error the printer can raise (ValueError at line 44). -/
inductive PErr
  | valueError
deriving DecidableEq

def valid_justifications : List String := ["left", "center", "right"]

def rowsCaption (mr : Int) (n : Nat) : String :=
  "Showing " ++ toString mr ++ " of " ++ toString n ++ " rows"

def colsCaption (mc : Int) (n : Nat) : String :=
  "Showing " ++ toString mc ++ " of " ++ toString n ++ " columns"

def bothCaption (mr : Int) (nr : Nat) (mc : Int) (nc : Nat) : String :=
  rowsCaption mr nr ++ ", " ++ toString mc ++ " of " ++ toString nc ++ " columns"

/-- Lines 107-113: the caption chain, kept in source order. The test of the
third branch is the conjunction of the first two tests, so it sits behind them
in the elif chain exactly as in the source. -/
def captionFor (df : PDFrame) (mr mc : Option Int) : Option String :=
  if truthy mr && decide ((df.nRows : Int) > intOf mr) then
    some (rowsCaption (intOf mr) df.nRows)
  else if truthy mc && decide ((df.nCols : Int) > intOf mc) then
    some (colsCaption (intOf mc) df.nCols)
  else if (truthy mr && decide ((df.nRows : Int) > intOf mr)) &&
      (truthy mc && decide ((df.nCols : Int) > intOf mc)) then
    some (bothCaption (intOf mr) df.nRows (intOf mc) df.nCols)
  else none

/-- Lines 59-105: assemble the Rich table from the truncated display frame.
Header justification is decided once per column from the dtype flag; the index
column, when shown, is right justified. -/
def buildTable (display : PDFrame) (title : Option String) (show_index : Bool)
    (justify_numeric : String) (cap : Option String) : RichTable :=
  { title := title
    columns :=
      (if show_index then [("Index", "right")] else []) ++
        display.headers.map (fun h => (h.1, if h.2 then justify_numeric else "left"))
    cells := display.rows.map (fun r =>
      (if show_index then [FmtCell.plainStr r.1] else []) ++
        (display.headers.zip r.2).map (fun p => formatCell p.1.2 p.2))
    caption := cap }

/-- Line 120: the shape notice reports the dimensions of the untruncated
source frame. -/
def shapeText (df : PDFrame) : String :=
  "DataFrame shape: " ++ toString df.nRows ++ " rows x " ++ toString df.nCols ++ " columns"

/-- Lines 46-120 of print_dataframe, after the justification check: the empty
notice returns early; otherwise the truncated table is printed with its
caption, followed by the shape notice exactly when max_rows or max_cols is
Python-truthy. -/
def renderEvents (df : PDFrame) (title : Option String) (mr mc : Option Int)
    (show_index : Bool) (justify_numeric : String) : List PEvent :=
  if df.empty then [PEvent.text "DataFrame is empty"]
  else
    [PEvent.table
        (buildTable (displayOf df mr mc) title show_index justify_numeric
          (captionFor df mr mc))] ++
      (if truthy mr || truthy mc then [PEvent.text (shapeText df)] else [])

/-- Lines 39-120: print_dataframe. The justification mode is validated before
anything else; an unrecognized mode raises ValueError, and since the raise
precedes every console.print, an error result carries no output events. -/
def print_dataframe (df : PDFrame) (title : Option String) (mr mc : Option Int)
    (show_index : Bool) (justify_numeric : String) : Except PErr (List PEvent) :=
  if justify_numeric ∈ valid_justifications then
    Except.ok (renderEvents df title mr mc show_index justify_numeric)
  else Except.error PErr.valueError

end Printing

namespace Insights

/-- pandas dtypes that pd.read_csv can infer for a column (int64, float64,
bool, object), plus datetime64, which data_types_summary additionally tests
for. -/
inductive Dtype
  | int64
  | float64
  | boolean
  | object
  | datetime64
deriving DecidableEq

/-- One stored cell: missing (NaN), numeric, text, or boolean. -/
inductive Cell
  | na
  | num (x : ℚ)
  | text (s : String)
  | tf (b : Bool)
deriving DecidableEq

/-- One column of the loaded table: its name, its pandas dtype, and its
cells. -/
structure Column where
  name : String
  dtype : Dtype
  cells : List Cell
deriving DecidableEq

/-- The loaded table self.df, an ordered list of named columns. -/
structure DF where
  cols : List Column
deriving DecidableEq

def DF.nCols (df : DF) : Nat := df.cols.length

def DF.nRows (df : DF) : Nat :=
  match df.cols with
  | [] => 0
  | c :: _ => c.cells.length

/-- pandas df.size: the total number of cells. -/
def DF.size (df : DF) : Nat := (df.cols.map (fun c => c.cells.length)).sum

/-- Rectangularity: pandas maintains one shared row count across all columns
of a DataFrame. -/
def DF.Rect (df : DF) : Prop := ∀ c ∈ df.cols, c.cells.length = df.nRows

instance (df : DF) : Decidable df.Rect := by
  unfold DF.Rect; infer_instance

def isNumberDtype : Dtype → Bool
  | .int64 => true
  | .float64 => true
  | _ => false

def isObjectDtype : Dtype → Bool
  | .object => true
  | _ => false

def isDatetimeDtype : Dtype → Bool
  | .datetime64 => true
  | _ => false

/-- df.select_dtypes(include=...).columns.tolist(): the names of the columns
whose dtype satisfies the inclusion predicate, in declaration order. -/
def select_dtypes (df : DF) (p : Dtype → Bool) : List String :=
  (df.cols.filter (fun c => p c.dtype)).map Column.name

/-- Line 83 (also 183): the numeric columns. -/
def numeric_columns (df : DF) : List String := select_dtypes df isNumberDtype

/-- Line 84 (also 138): the categorical (object-dtype) columns. -/
def categorical_columns (df : DF) : List String := select_dtypes df isObjectDtype

/-- Line 85: the datetime columns. -/
def datetime_columns (df : DF) : List String := select_dtypes df isDatetimeDtype

/-- Lines 77-108: data_types_summary reports the three partitions. No
statement in the method assigns to self.df, so the state is returned
unchanged. -/
def data_types_summary (df : DF) : DF × (List String × List String × List String) :=
  (df, (numeric_columns df, categorical_columns df, datetime_columns df))

/-- df.isnull().sum() for one column: the number of NaN cells. -/
def Column.isnullCount (c : Column) : Nat := c.cells.countP (fun v => v == Cell.na)

/-- The total number of missing cells of the table,
missing_elements_per_column.values.sum() at line 63. -/
def DF.totalMissing (df : DF) : Nat := (df.cols.map Column.isnullCount).sum

/-- Ascending order on missing-record rows by their Missing Elements field,
used by sort_values at line 67. -/
def byMissing (a b : String × Nat × ℚ) : Prop := a.2.1 ≤ b.2.1

instance : DecidableRel byMissing :=
  fun a b => inferInstanceAs (Decidable (a.2.1 ≤ b.2.1))

instance : IsTotal (String × Nat × ℚ) byMissing :=
  ⟨fun a b => Nat.le_total a.2.1 b.2.1⟩

instance : IsTrans (String × Nat × ℚ) byMissing :=
  ⟨fun _ _ _ h h2 => Nat.le_trans h h2⟩

/-- Lines 58-67: the missing-record rows. Each column contributes its name,
its missing count, and the Percentage Missing scalar broadcast to every row:
total missing cells times 100 over df.size. Rows with zero missing elements
are filtered out and the rest are sorted ascending by missing count. The sort
kind of pandas is modeled by insertion sort; every property proved about the
result (sortedness, membership) is independent of the order of ties. -/
def missing_record (df : DF) : List (String × Nat × ℚ) :=
  List.insertionSort byMissing
    ((df.cols.map (fun c =>
        (c.name, c.isnullCount, (df.totalMissing * 100 : ℚ) / df.size))).filter
      (fun e => decide (0 < e.2.1)))

/-- One printed item of missing_values_analysis: a message line or the textual
dump of a table produced by to_string. -/
inductive MVEvent
  | msg (s : String)
  | dump (t : DF)
deriving DecidableEq

/-- Lines 69-74: the branch on the missing record. When at least one row
survives the filter the method prints a confirmation and then dumps
self.df.to_string, the full original table, not the missing record it just
computed. Otherwise it prints the no-missing line. -/
def missing_values_events (df : DF) : List MVEvent :=
  if (missing_record df).length != 0 then
    [MVEvent.msg "Found missing values in dataset!", MVEvent.dump df]
  else
    [MVEvent.msg "There are no missing elements in the dataset !!"]

/-- Lines 52-74: missing_values_analysis as a state transformer. -/
def missing_values_analysis (df : DF) : DF × List MVEvent :=
  (df, missing_values_events df)

/-- Lines 36-49: basic_info prints the row count, the column count, the memory
usage and the 1-indexed enumerated column names. The memory usage is a
platform byte count outside the data model; the structural outputs are
returned. -/
def basic_info (df : DF) : DF × (Nat × Nat × List (Nat × String)) :=
  (df, (df.nRows, df.nCols, List.enumFrom 1 (df.cols.map Column.name)))

/-- The numeric data of a column as describe sees it: the non-missing numeric
cells in order. -/
def Column.numData (c : Column) : List ℚ :=
  c.cells.filterMap (fun v => match v with | Cell.num x => some x | _ => none)

/-- Ascending sort on rationals, for quantile computation. -/
def sortQ : List ℚ → List ℚ := List.insertionSort (· ≤ ·)

def meanQ (xs : List ℚ) : ℚ := xs.sum / xs.length

/-- The sample variance with the n - 1 denominator that pandas std uses. -/
def sampleVar (xs : List ℚ) : ℚ :=
  (xs.map (fun x => (x - meanQ xs) ^ 2)).sum / ((xs.length : ℚ) - 1)

/-- The pandas quantile with linear interpolation: at position
h = q * (n - 1) of the sorted data, interpolating between the two neighboring
order statistics. -/
def quantile (xs : List ℚ) (q : ℚ) : ℚ :=
  let s := sortQ xs
  let h : ℚ := q * ((s.length : ℚ) - 1)
  let lo : Nat := (Int.floor h).toNat
  s.getD lo 0 + (h - Int.floor h) * (s.getD (lo + 1) 0 - s.getD lo 0)

/-- The eight rows of df.describe(include=number) for one numeric column:
count, mean, std, min, the three quartiles, max. The standard deviation is
irrational in general, so it is a parameter certified by the caller via
std ^ 2 = sampleVar. -/
def describeRows (xs : List ℚ) (std : ℚ) : List (String × ℚ) :=
  [("count", (xs.length : ℚ)), ("mean", meanQ xs), ("std", std),
   ("min", (sortQ xs).headD 0), ("25%", quantile xs (1/4)),
   ("50%", quantile xs (1/2)), ("75%", quantile xs (3/4)),
   ("max", (sortQ xs).getLastD 0)]

/-- Line 121 of data_insights.py: summary.loc[median] is assigned
self.df.describe(include=number).median(). DataFrame.median() reduces over the
rows of its receiver, so per column this is the median of the eight describe
statistics, not the median of the data of the column. -/
def codeMedianRow (xs : List ℚ) (std : ℚ) : ℚ :=
  quantile ((describeRows xs std).map Prod.snd) (1/2)

/-- The pandas sample skewness (adjusted Fisher-Pearson), with the standard
deviation supplied as a certified parameter. -/
def sampleSkew (xs : List ℚ) (std : ℚ) : ℚ :=
  let n : ℚ := xs.length
  n / ((n - 1) * (n - 2)) * (xs.map (fun x => ((x - meanQ xs) / std) ^ 3)).sum

/-- The pandas sample excess kurtosis, with the standard deviation supplied as
a certified parameter. -/
def sampleKurt (xs : List ℚ) (std : ℚ) : ℚ :=
  let n : ℚ := xs.length
  n * (n + 1) / ((n - 1) * (n - 2) * (n - 3)) *
      (xs.map (fun x => ((x - meanQ xs) / std) ^ 4)).sum -
    3 * (n - 1) ^ 2 / ((n - 2) * (n - 3))

/-- Lines 111-128: numeric_summary as a state transformer. stdFn supplies the
square roots pandas takes in floating point: stdFn ys stands for the sample
standard deviation of the list ys. Per numeric column the describe rows are
computed, and then, following lines 121-123 of the source, the median, skew
and kurtosis rows are computed from the describe statistics themselves. -/
def numeric_summary (stdFn : List ℚ → ℚ) (df : DF) :
    DF × Option (List (String × List (String × ℚ))) :=
  (df,
    if (numeric_columns df).length > 0 then
      some ((df.cols.filter (fun c => isNumberDtype c.dtype)).map (fun c =>
        let xs := c.numData
        let d := describeRows xs (stdFn xs)
        let dv := d.map Prod.snd
        (c.name,
          d ++ [("median", codeMedianRow xs (stdFn xs)),
                ("skew", sampleSkew dv (stdFn dv)),
                ("kurtosis", sampleKurt dv (stdFn dv))])))
    else none)

/-- The distinct values of a list in first-appearance order. -/
def distinctFirsts : List Cell → List Cell
  | [] => []
  | v :: vs => v :: distinctFirsts (vs.filter (fun w => !(w == v)))
termination_by l => l.length
decreasing_by
  simpa using Nat.lt_succ_of_le (List.length_filter_le _ _)

/-- Descending order on value-count rows, used by value_counts. -/
def byCountDesc (a b : Cell × Nat) : Prop := b.2 ≤ a.2

instance : DecidableRel byCountDesc :=
  fun a b => inferInstanceAs (Decidable (b.2 ≤ a.2))

/-- pandas Series.value_counts: the distinct non-missing values paired with
their multiplicities, sorted by descending count. -/
def value_counts (cells : List Cell) : List (Cell × Nat) :=
  let vs := cells.filter (fun v => !(v == Cell.na))
  List.insertionSort byCountDesc
    ((distinctFirsts vs).map (fun v => (v, vs.countP (fun w => w == v))))

/-- pandas Series.nunique: the number of distinct non-missing values. -/
def nunique (cells : List Cell) : Nat :=
  (distinctFirsts (cells.filter (fun v => !(v == Cell.na)))).length

/-- pandas Series.mode: every non-missing value tied for the highest
frequency. -/
def modes (cells : List Cell) : List Cell :=
  let vs := cells.filter (fun v => !(v == Cell.na))
  let m := ((distinctFirsts vs).map (fun v => vs.countP (fun w => w == v))).foldr max 0
  (distinctFirsts vs).filter (fun v => vs.countP (fun w => w == v) == m)

def N_MAX : Nat := 10

/-- Lines 131-173: categorical_summary as a state transformer. Per object
column it reports the unique count, the frequency table when at most N_MAX
distinct values exist (none models the skip message), and the mode table when
at most N_MAX modes exist. -/
def categorical_summary (df : DF) :
    DF × Option (List (String × Nat × Option (List (Cell × Nat)) × Option (List (Cell × Nat)))) :=
  (df,
    let cats := df.cols.filter (fun c => isObjectDtype c.dtype)
    if cats.length != 0 then
      some (cats.map (fun c =>
        let nu := nunique c.cells
        let freq := if nu ≤ N_MAX then some (value_counts c.cells) else none
        let ms := modes c.cells
        let modeTab :=
          if ms.length ≤ N_MAX then
            some (ms.map (fun v =>
              (v, (c.cells.filter (fun w => !(w == Cell.na))).countP (fun w => w == v))))
          else none
        (c.name, nu, freq, modeTab)))
    else none)

/-- Row-major upper-triangle index pairs i < j < n, in scan order. -/
def upperTriangle (n : Nat) : List (Nat × Nat) :=
  (List.range n).flatMap (fun i =>
    (List.range' (i + 1) (n - (i + 1))).map (fun j => (i, j)))

/-- Lines 208-215 (Pearson) and 231-238 (Spearman): the strong-correlation
scan. For i in range(n) and j in range(i+1, n), the triple
(cols[i], cols[j], M i j) is kept when the absolute coefficient exceeds 0.5.
M is the correlation matrix indexed by positions in cols. -/
def strong_correlations (cols : List String) (M : Nat → Nat → ℚ) :
    List (String × String × ℚ) :=
  (List.range cols.length).flatMap (fun i =>
    (List.range' (i + 1) (cols.length - (i + 1))).filterMap (fun j =>
      if 1/2 < |M i j| then some (cols.getD i "", cols.getD j "", M i j) else none))

/-- The printed outcome of correlation_analysis. -/
inductive CorrOut
  | noNumeric
  | needTwo (found : Nat)
  | matrices (cols : List String) (pearsonStrong spearmanStrong : List (String × String × ℚ))
deriving DecidableEq

/-- Lines 176-244: correlation_analysis as a state transformer. The Pearson
and Spearman coefficient matrices over the numeric columns are computed by
pandas in floating point; they enter the model as the function arguments pearM
and spearM, indexed by positions in numeric_columns. -/
def correlation_analysis (pearM spearM : Nat → Nat → ℚ) (df : DF) : DF × CorrOut :=
  (df,
    let nc := numeric_columns df
    if nc.length == 0 then CorrOut.noNumeric
    else if nc.length < 2 then CorrOut.needTwo nc.length
    else CorrOut.matrices nc (strong_correlations nc pearM) (strong_correlations nc spearM))

end Insights

namespace Printing

/-- Example frame with 5 numeric columns and 5 rows, for exercising the
caption chain. -/
def exWideDF : PDFrame :=
  { headers := [("A", true), ("B", true), ("C", true), ("D", true), ("E", true)],
    rows := [("0", [.int 1, .int 2, .int 3, .int 4, .int 5]),
             ("1", [.int 1, .int 2, .int 3, .int 4, .int 5]),
             ("2", [.int 1, .int 2, .int 3, .int 4, .int 5]),
             ("3", [.int 1, .int 2, .int 3, .int 4, .int 5]),
             ("4", [.int 1, .int 2, .int 3, .int 4, .int 5])] }

/-- Example frame with one numeric column and two rows. -/
def exTwoRowDF : PDFrame :=
  { headers := [("A", true)], rows := [("0", [.int 1]), ("1", [.int 2])] }

/-- The frame with no columns and no rows. -/
def emptyPDF : PDFrame := { headers := [], rows := [] }

/-- C7: for every input table and every justification mode, print_dataframe
raises its InvalidArgument error (ValueError) iff the mode is not among left,
center, right; with a recognized mode it never raises this error. -/
theorem print_dataframe_invalid_argument_iff (df : PDFrame) (title : Option String)
    (mr mc : Option Int) (si : Bool) (j : String) :
    print_dataframe df title mr mc si j = Except.error PErr.valueError ↔
      j ∉ valid_justifications := by
  unfold print_dataframe
  split
  · next h => simp [h]
  · next h => simp [h]

/-- C10: the printer validates the justification mode before anything else;
with an unrecognized mode the call fails with the ValueError and, since the
raise precedes every console.print in the source, the error result carries no
output events at all, for every input table including the empty one. -/
theorem invalid_justification_validated_first (df : PDFrame) (title : Option String)
    (mr mc : Option Int) (si : Bool) (j : String) (h : j ∉ valid_justifications) :
    print_dataframe df title mr mc si j = Except.error PErr.valueError := by
  simp [print_dataframe, h]

/-- Witness for C10 at the empty frame and the unrecognized mode middle: the
call errors and in particular never prints the empty notice. -/
theorem invalid_justification_validated_first_witness :
    print_dataframe emptyPDF none none none false "middle" = Except.error PErr.valueError :=
  invalid_justification_validated_first emptyPDF none none none false "middle" (by decide)

/-- C3 (code bug at lines 107-113 of printing.py): when both the row cap and
the column cap truncate, the caption reports only the row truncation. The
third branch of the caption chain, whose test is the conjunction of the first
two, is unreachable behind them, so the both-truncated caption is never
produced: on a 5 by 5 frame capped at 2 rows and 2 columns the caption is the
rows-only text. -/
theorem caption_drops_columns_when_both_truncate :
    captionFor exWideDF (some 2) (some 2) = some "Showing 2 of 5 rows" ∧
    captionFor exWideDF (some 2) (some 2) ≠ some (bothCaption 2 5 2 5) := by
  constructor
  · rfl
  · decide

/-- C8 counterexample: supplying the row cap 0 is supplying a truncation
parameter, yet the shape notice is not printed, because line 119 tests Python
truthiness and 0 is falsy. -/
theorem shape_notice_missing_for_zero_cap :
    ((some 0 : Option Int) ≠ none) ∧
    PEvent.text (shapeText exTwoRowDF) ∉
      renderEvents exTwoRowDF none (some 0) none true "right" := by
  decide

/-- C8 (amended): for a call on a frame that is not empty, the shape notice
giving the untruncated source dimensions is printed after the table iff at
least one supplied cap is Python-truthy, that is, not None and nonzero; this
includes truthy caps that do not actually truncate anything, and excludes a
supplied cap of 0. -/
theorem shape_notice_iff_truthy_cap (df : PDFrame) (title : Option String)
    (mr mc : Option Int) (si : Bool) (j : String) (hne : df.empty = false) :
    (PEvent.text (shapeText df) ∈ renderEvents df title mr mc si j ↔
      (truthy mr || truthy mc) = true) := by
  unfold renderEvents
  rw [hne]
  by_cases h : (truthy mr || truthy mc) = true
  · simp [h]
  · simp [h]

/-- Witness for C8 at a nonempty frame with a truthy, non-truncating row cap:
the shape notice is printed. -/
theorem shape_notice_iff_truthy_cap_witness :
    PEvent.text (shapeText exTwoRowDF) ∈
      renderEvents exTwoRowDF none (some 5) none true "left" :=
  (shape_notice_iff_truthy_cap exTwoRowDF none (some 5) none true "left"
    (by decide)).mpr (by decide)

end Printing

namespace Insights

/-- C9: every analysis method of the report object returns the owned table
unchanged. Each method of the source reads self.df and never assigns to it;
the intermediate frames it mutates (the describe summary, the missing record)
are freshly computed values, so in the state-passing embedding the state
component of every method is the input table itself. stdFn, pearM and spearM
stand for the floating-point square roots and correlation matrices pandas
computes; the preservation holds for all of them. -/
theorem analysis_methods_preserve_table (stdFn : List ℚ → ℚ)
    (pearM spearM : Nat → Nat → ℚ) (df : DF) :
    (basic_info df).1 = df ∧
    (missing_values_analysis df).1 = df ∧
    (data_types_summary df).1 = df ∧
    (numeric_summary stdFn df).1 = df ∧
    (categorical_summary df).1 = df ∧
    (correlation_analysis pearM spearM df).1 = df :=
  ⟨rfl, rfl, rfl, rfl, rfl, rfl⟩

end Insights

namespace Insights

/-- A table whose single column has bool dtype, as pd.read_csv infers for a
CSV column holding only True and False. -/
def boolDF : DF := ⟨[⟨"Flag", Dtype.boolean, [Cell.tf true, Cell.tf false]⟩]⟩

/-- A table with one column of each reported kind. -/
def kindsDF : DF :=
  ⟨[⟨"N", Dtype.int64, []⟩, ⟨"C", Dtype.object, []⟩, ⟨"D", Dtype.datetime64, []⟩]⟩

/-- C2 counterexample: a bool-dtype column is selected by none of the three
inclusion filters (number, object, datetime), so the union of the three
partitions reported by data_types_summary is not the full column set. -/
theorem bool_column_in_no_partition :
    ¬ ∀ n ∈ boolDF.cols.map Column.name,
        n ∈ numeric_columns boolDF ∨ n ∈ categorical_columns boolDF ∨
          n ∈ datetime_columns boolDF := by
  decide

/-- Membership in a select_dtypes result. -/
theorem mem_select_dtypes {df : DF} {p : Dtype → Bool} {n : String} :
    n ∈ select_dtypes df p ↔ ∃ c, (c ∈ df.cols ∧ p c.dtype = true) ∧ c.name = n := by
  simp [select_dtypes]

/-- With distinct column names, the name determines the column. -/
theorem name_determines_column {l : List Column}
    (hnd : (l.map Column.name).Nodup) {c c2 : Column}
    (hc : c ∈ l) (hc2 : c2 ∈ l) (h : c.name = c2.name) : c = c2 := by
  by_contra hne
  have hp : l.Pairwise (fun a b => Column.name a ≠ Column.name b) := by
    simpa [List.Nodup, List.pairwise_map] using hnd
  exact hp.forall (fun _ _ hab => hab.symm) hc hc2 hne h

/-- C2 (amended): for a table with distinct column names, the three partitions
reported by data_types_summary are pairwise disjoint, every column whose dtype
is not bool lands in at least one of them, and every reported name is a column
of the table; hence every non-bool column is reported in exactly one
partition, while a bool column (which pd.read_csv can produce) is reported in
none. -/
theorem data_types_partition_amended (df : DF)
    (hnd : (df.cols.map Column.name).Nodup) :
    (∀ n ∈ numeric_columns df, n ∉ categorical_columns df ∧ n ∉ datetime_columns df) ∧
    (∀ n ∈ categorical_columns df, n ∉ datetime_columns df) ∧
    (∀ c ∈ df.cols, c.dtype ≠ Dtype.boolean →
        c.name ∈ numeric_columns df ∨ c.name ∈ categorical_columns df ∨
          c.name ∈ datetime_columns df) ∧
    (∀ n, (n ∈ numeric_columns df ∨ n ∈ categorical_columns df ∨
        n ∈ datetime_columns df) → n ∈ df.cols.map Column.name) := by
  refine ⟨?_, ?_, ?_, ?_⟩
  · intro n hn
    rw [numeric_columns, mem_select_dtypes] at hn
    obtain ⟨c, ⟨hc, hnum⟩, rfl⟩ := hn
    constructor
    · intro hcat
      rw [categorical_columns, mem_select_dtypes] at hcat
      obtain ⟨c2, ⟨hc2, hobj⟩, hn2⟩ := hcat
      have := name_determines_column hnd hc2 hc hn2
      subst this
      cases hd : c2.dtype <;> rw [hd] at hnum hobj <;> simp_all [isNumberDtype, isObjectDtype]
    · intro hdt
      rw [datetime_columns, mem_select_dtypes] at hdt
      obtain ⟨c2, ⟨hc2, hobj⟩, hn2⟩ := hdt
      have := name_determines_column hnd hc2 hc hn2
      subst this
      cases hd : c2.dtype <;> rw [hd] at hnum hobj <;> simp_all [isNumberDtype, isDatetimeDtype]
  · intro n hn
    rw [categorical_columns, mem_select_dtypes] at hn
    obtain ⟨c, ⟨hc, hobj⟩, rfl⟩ := hn
    intro hdt
    rw [datetime_columns, mem_select_dtypes] at hdt
    obtain ⟨c2, ⟨hc2, hdtt⟩, hn2⟩ := hdt
    have := name_determines_column hnd hc2 hc hn2
    subst this
    cases hd : c2.dtype <;> rw [hd] at hobj hdtt <;> simp_all [isObjectDtype, isDatetimeDtype]
  · intro c hc hbool
    cases hd : c.dtype
    · exact Or.inl (mem_select_dtypes.mpr ⟨c, ⟨hc, by rw [hd]; rfl⟩, rfl⟩)
    · exact Or.inl (mem_select_dtypes.mpr ⟨c, ⟨hc, by rw [hd]; rfl⟩, rfl⟩)
    · exact absurd hd hbool
    · exact Or.inr (Or.inl (mem_select_dtypes.mpr ⟨c, ⟨hc, by rw [hd]; rfl⟩, rfl⟩))
    · exact Or.inr (Or.inr (mem_select_dtypes.mpr ⟨c, ⟨hc, by rw [hd]; rfl⟩, rfl⟩))
  · intro n hn
    rcases hn with h | h | h
    · rw [numeric_columns, mem_select_dtypes] at h
      obtain ⟨c, ⟨hc, _⟩, hn2⟩ := h
      exact hn2 ▸ List.mem_map_of_mem _ hc
    · rw [categorical_columns, mem_select_dtypes] at h
      obtain ⟨c, ⟨hc, _⟩, hn2⟩ := h
      exact hn2 ▸ List.mem_map_of_mem _ hc
    · rw [datetime_columns, mem_select_dtypes] at h
      obtain ⟨c, ⟨hc, _⟩, hn2⟩ := h
      exact hn2 ▸ List.mem_map_of_mem _ hc

/-- Witness for C2 at a table with an int64, an object and a datetime column:
the int64 column is reported in one of the partitions. -/
theorem data_types_partition_amended_witness :
    ("N" : String) ∈ numeric_columns kindsDF ∨ "N" ∈ categorical_columns kindsDF ∨
      "N" ∈ datetime_columns kindsDF := by
  have h := (data_types_partition_amended kindsDF (by decide)).2.2.1
    ⟨"N", Dtype.int64, []⟩ (by decide) (by decide)
  simpa using h

end Insights

namespace Insights

/-- Sum of the cell counts of a rectangular list of columns. -/
theorem sum_lengths_eq {l : List Column} {r : Nat} (h : ∀ c ∈ l, c.cells.length = r) :
    (l.map (fun c => c.cells.length)).sum = r * l.length := by
  induction l with
  | nil => simp
  | cons c l ih =>
    simp only [List.map_cons, List.sum_cons, List.length_cons]
    rw [h c (by simp), ih (fun c2 hc2 => h c2 (by simp [hc2]))]
    ring

/-- For a rectangular table, df.size equals rows times columns. -/
theorem DF.size_eq (df : DF) (h : df.Rect) : df.size = df.nRows * df.nCols := by
  unfold DF.size DF.nCols
  exact sum_lengths_eq h

/-- The missing record is empty iff the table has no missing cells. -/
theorem missing_record_nil_iff (df : DF) :
    missing_record df = [] ↔ df.totalMissing = 0 := by
  unfold missing_record
  constructor
  · intro h
    have hp := List.perm_insertionSort byMissing
      ((df.cols.map (fun c => (c.name, c.isnullCount,
        (df.totalMissing * 100 : ℚ) / df.size))).filter (fun e => decide (0 < e.2.1)))
    rw [h] at hp
    have hnil := hp.symm.eq_nil
    rw [List.filter_eq_nil_iff] at hnil
    unfold DF.totalMissing
    rw [List.sum_eq_zero_iff]
    intro x hx
    rw [List.mem_map] at hx
    obtain ⟨c, hc, rfl⟩ := hx
    have := hnil _ (List.mem_map_of_mem _ hc)
    simpa using this
  · intro h
    have hall : ∀ c ∈ df.cols, c.isnullCount = 0 := by
      intro c hc
      have := List.sum_eq_zero_iff.mp h
      exact this _ (List.mem_map_of_mem _ hc)
    have hfil : (df.cols.map (fun c => (c.name, c.isnullCount,
        (df.totalMissing * 100 : ℚ) / df.size))).filter (fun e => decide (0 < e.2.1)) = [] := by
      rw [List.filter_eq_nil_iff]
      intro e he
      rw [List.mem_map] at he
      obtain ⟨c, hc, rfl⟩ := he
      simpa using hall c hc
    rw [hfil]
    rfl

/-- C5: every reported Percentage Missing value equals the global rate, total
missing cells times 100 over rows times columns, identical for every listed
row; only columns with a positive missing count are listed; the record is
sorted ascending by missing count; and the no-missing confirmation is the
whole output exactly when the table has zero missing cells. -/
theorem missing_values_spec (df : DF) (hrect : df.Rect) :
    (∀ e ∈ missing_record df,
        e.2.2 = (df.totalMissing * 100 : ℚ) / ((df.nRows : ℚ) * df.nCols) ∧ 0 < e.2.1) ∧
    (missing_record df).Sorted byMissing ∧
    ((missing_values_analysis df).2 =
        [MVEvent.msg "There are no missing elements in the dataset !!"] ↔
      df.totalMissing = 0) := by
  refine ⟨?_, List.sorted_insertionSort byMissing _, ?_⟩
  · intro e he
    have hmem : e ∈ (df.cols.map (fun c => (c.name, c.isnullCount,
        (df.totalMissing * 100 : ℚ) / df.size))).filter (fun e => decide (0 < e.2.1)) :=
      (List.perm_insertionSort byMissing _).mem_iff.mp he
    rw [List.mem_filter] at hmem
    obtain ⟨hmap, hpos⟩ := hmem
    rw [List.mem_map] at hmap
    obtain ⟨c, _, rfl⟩ := hmap
    refine ⟨?_, by simpa using hpos⟩
    have hsz : ((df.size : ℚ)) = (df.nRows : ℚ) * df.nCols := by
      rw [DF.size_eq df hrect]
      push_cast
      ring
    simp [hsz]
  · unfold missing_values_analysis missing_values_events
    by_cases h : missing_record df = []
    · rw [missing_record_nil_iff] at h
      simp [missing_record_nil_iff, h]
    · have h2 : df.totalMissing ≠ 0 := fun hz => h ((missing_record_nil_iff df).mpr hz)
      have h3 : (missing_record df).length ≠ 0 := fun hz => h (List.length_eq_zero.mp hz)
      simp [h2, h3]

/-- A table with no missing cells. -/
def exCleanDF : DF := ⟨[⟨"A", Dtype.int64, [Cell.num 1, Cell.num 2]⟩]⟩

/-- Witness for C5 at a table with no missing cells: the output is exactly the
no-missing confirmation. -/
theorem missing_values_spec_witness :
    (missing_values_analysis exCleanDF).2 =
      [MVEvent.msg "There are no missing elements in the dataset !!"] :=
  ((missing_values_spec exCleanDF (by decide)).2.2).mpr (by decide)

/-- A column with two missing cells. -/
def exMissCol : Column := ⟨"A", Dtype.float64, [Cell.num 1, Cell.na, Cell.na]⟩

/-- A table with missing cells in both columns. -/
def exMissDF : DF := ⟨[exMissCol, ⟨"B", Dtype.object, [Cell.text "x", Cell.text "y", Cell.na]⟩]⟩

/-- C6: whenever at least one column has a positive missing count, the method
prints the confirmation message followed by a dump of the full original table
(self.df.to_string), not the missing-value summary it computed. -/
theorem missing_analysis_dumps_original (df : DF)
    (h : ∃ c ∈ df.cols, 0 < c.isnullCount) :
    (missing_values_analysis df).2 =
      [MVEvent.msg "Found missing values in dataset!", MVEvent.dump df] := by
  obtain ⟨c, hc, hcnt⟩ := h
  have hmem : (c.name, c.isnullCount, (df.totalMissing * 100 : ℚ) / df.size) ∈
      (df.cols.map (fun c => (c.name, c.isnullCount,
        (df.totalMissing * 100 : ℚ) / df.size))).filter (fun e => decide (0 < e.2.1)) :=
    List.mem_filter.mpr ⟨List.mem_map_of_mem _ hc, by simpa using hcnt⟩
  have hlen : (missing_record df).length ≠ 0 := by
    unfold missing_record
    rw [(List.perm_insertionSort byMissing _).length_eq]
    exact Nat.pos_iff_ne_zero.mp (List.length_pos_of_mem hmem)
  unfold missing_values_analysis missing_values_events
  simp [hlen]

/-- Witness for C6 at a table with missing cells in both columns: the dump of
the original table is printed. -/
theorem missing_analysis_dumps_original_witness :
    (missing_values_analysis exMissDF).2 =
      [MVEvent.msg "Found missing values in dataset!", MVEvent.dump exMissDF] :=
  missing_analysis_dumps_original exMissDF ⟨exMissCol, by decide, by decide⟩

end Insights

namespace Insights

/-- Membership in the row-major upper-triangle enumeration. -/
theorem mem_upperTriangle {n : Nat} {p : Nat × Nat} :
    p ∈ upperTriangle n ↔ p.1 < p.2 ∧ p.2 < n := by
  obtain ⟨i, j⟩ := p
  simp only [upperTriangle, List.mem_flatMap, List.mem_map, List.mem_range, List.mem_range']
  constructor
  · rintro ⟨a, ha, b, ⟨k, hk, rfl⟩, heq⟩
    obtain ⟨rfl, rfl⟩ := Prod.mk.injEq .. ▸ heq
    omega
  · rintro ⟨hij, hjn⟩
    exact ⟨i, by omega, j, ⟨j - (i + 1), by omega, by omega⟩, rfl⟩

/-- The upper-triangle enumeration is strictly increasing in lexicographic
order. -/
theorem upperTriangle_pairwise (n : Nat) :
    (upperTriangle n).Pairwise
      (fun p q => p.1 < q.1 ∨ (p.1 = q.1 ∧ p.2 < q.2)) := by
  unfold upperTriangle
  rw [List.pairwise_flatMap]
  constructor
  · intro i _
    rw [List.pairwise_map]
    refine List.Pairwise.imp ?_ (List.pairwise_lt_range' (i + 1) (n - (i + 1)))
    intro a b hab
    exact Or.inr ⟨rfl, hab⟩
  · refine List.Pairwise.imp_of_mem ?_ (List.pairwise_lt_range n)
    intro a b _ _ hab
    intro x hx y hy
    rw [List.mem_map] at hx hy
    obtain ⟨k, _, rfl⟩ := hx
    obtain ⟨k2, _, rfl⟩ := hy
    exact Or.inl hab

/-- A filterMap over an if-some-else-none body is a filter followed by a
map. -/
theorem filterMap_ite {α β : Type} (l : List α) (p : α → Prop) [DecidablePred p]
    (f : α → β) :
    l.filterMap (fun a => if p a then some (f a) else none) =
      (l.filter (fun a => decide (p a))).map f := by
  induction l with
  | nil => rfl
  | cons a l ih =>
    by_cases h : p a
    · simp [h, ih]
    · simp [h, ih]

/-- The strong-correlation scan equals the filtered row-major upper-triangle
enumeration, mapped to name-name-coefficient triples: the list holds exactly
the upper-triangle pairs whose absolute coefficient exceeds 0.5, in scan
order. -/
theorem strong_correlations_eq (cols : List String) (M : Nat → Nat → ℚ) :
    strong_correlations cols M =
      ((upperTriangle cols.length).filter
          (fun p => decide (1/2 < |M p.1 p.2|))).map
        (fun p => (cols.getD p.1 "", cols.getD p.2 "", M p.1 p.2)) := by
  unfold strong_correlations upperTriangle
  rw [List.filter_flatMap, List.map_flatMap]
  refine congrArg _ ?_
  funext i
  rw [List.filter_map, List.map_map, filterMap_ite]
  rfl

/-- With distinct names, getD at in-range positions is injective. -/
theorem getD_name_inj {l : List String} (hnd : l.Nodup) {i j : Nat}
    (hi : i < l.length) (hj : j < l.length) (h : l.getD i "" = l.getD j "") :
    i = j := by
  rw [List.getD_eq_getElem l "" hi, List.getD_eq_getElem l "" hj] at h
  exact hnd.getElem_inj_iff.mp h

/-- C4: a triple is in the strong list iff it is an upper-triangle pair i < j
of numeric columns whose absolute coefficient exceeds 0.5; with distinct
column names no unordered pair of names occurs twice; and the list is exactly
the row-major upper-triangle enumeration filtered by the threshold, so
strong pairs appear in scan order. The same function is applied to the
Pearson and to the Spearman matrix in correlation_analysis. -/
theorem strong_correlations_spec (cols : List String) (M : Nat → Nat → ℚ)
    (hnd : cols.Nodup) :
    (∀ A B v, (A, B, v) ∈ strong_correlations cols M ↔
        ∃ i j, i < j ∧ j < cols.length ∧ 1/2 < |M i j| ∧
          A = cols.getD i "" ∧ B = cols.getD j "" ∧ v = M i j) ∧
    (strong_correlations cols M).Pairwise (fun x y =>
        ¬(x.1 = y.1 ∧ x.2.1 = y.2.1) ∧ ¬(x.1 = y.2.1 ∧ x.2.1 = y.1)) ∧
    strong_correlations cols M =
      ((upperTriangle cols.length).filter
          (fun p => decide (1/2 < |M p.1 p.2|))).map
        (fun p => (cols.getD p.1 "", cols.getD p.2 "", M p.1 p.2)) := by
  refine ⟨?_, ?_, strong_correlations_eq cols M⟩
  · intro A B v
    rw [strong_correlations_eq]
    simp only [List.mem_map, List.mem_filter, mem_upperTriangle, decide_eq_true_eq]
    constructor
    · rintro ⟨⟨i, j⟩, ⟨⟨hij, hjn⟩, habs⟩, heq⟩
      obtain ⟨h1, h2, h3⟩ := Prod.mk.injEq .. ▸ heq
      exact ⟨i, j, hij, hjn, habs, h1.symm, by simp_all⟩
    · rintro ⟨i, j, hij, hjn, habs, rfl, rfl, rfl⟩
      exact ⟨(i, j), ⟨⟨hij, hjn⟩, habs⟩, rfl⟩
  · rw [strong_correlations_eq, List.pairwise_map]
    refine List.Pairwise.imp_of_mem ?_
      ((upperTriangle_pairwise cols.length).filter _)
    intro p q hp hq hlex
    have hpb := mem_upperTriangle.mp (List.mem_of_mem_filter hp)
    have hqb := mem_upperTriangle.mp (List.mem_of_mem_filter hq)
    constructor
    · rintro ⟨h1, h2⟩
      have e1 : p.1 = q.1 :=
        getD_name_inj hnd (lt_trans hpb.1 hpb.2) (lt_trans hqb.1 hqb.2) h1
      have e2 : p.2 = q.2 := getD_name_inj hnd hpb.2 hqb.2 h2
      rcases hlex with h | ⟨_, h⟩ <;> omega
    · rintro ⟨h1, h2⟩
      have e1 : p.1 = q.2 :=
        getD_name_inj hnd (lt_trans hpb.1 hpb.2) hqb.2 h1
      have e2 : p.2 = q.1 :=
        getD_name_inj hnd hpb.2 (lt_trans hqb.1 hqb.2) h2
      have := hpb.1
      have := hqb.1
      omega

/-- An example coefficient matrix whose only strong upper-triangle entry is at
position (0, 1). -/
def exM : Nat → Nat → ℚ := fun i j => if i == 0 && j == 1 then 1 else 0

/-- Witness for C4 on two columns whose coefficient is 1: the pair is in the
strong list. -/
theorem strong_correlations_spec_witness :
    ("X", "Y", (1 : ℚ)) ∈ strong_correlations ["X", "Y"] exM :=
  ((strong_correlations_spec ["X", "Y"] exM (by decide)).1 "X" "Y" 1).mpr
    ⟨0, 1, by decide, by decide, by norm_num [exM], rfl, rfl, by norm_num [exM]⟩

end Insights

namespace Insights

/-- The numeric column 0, 0, 0, 100: heavily skewed, so the describe
statistics differ from the raw data everywhere it matters. -/
def exSkewedData : List ℚ := [0, 0, 0, 100]

theorem sortQ_exSkewedData : sortQ exSkewedData = [0, 0, 0, 100] := by decide

theorem sampleVar_exSkewedData : sampleVar exSkewedData = 2500 := by
  norm_num [sampleVar, meanQ, exSkewedData]

theorem quantile_exSkewedData_half : quantile exSkewedData (1/2) = 0 := by
  simp only [quantile, sortQ_exSkewedData]
  norm_num [List.getD, show Int.toNat 1 = 1 from rfl]

theorem describeVals_exSkewedData :
    (describeRows exSkewedData 50).map Prod.snd = [4, 25, 50, 0, 0, 0, 25, 100] := by
  have h25 : quantile exSkewedData (1/4) = 0 := by
    simp only [quantile, sortQ_exSkewedData]
    norm_num [List.getD, show Int.toNat 0 = 0 from rfl]
  have h75 : quantile exSkewedData (3/4) = 25 := by
    simp only [quantile, sortQ_exSkewedData]
    norm_num [List.getD, show Int.toNat 2 = 2 from rfl]
  have hmean : meanQ exSkewedData = 25 := by norm_num [meanQ, exSkewedData]
  have hlen : ((exSkewedData.length : ℚ)) = 4 := by norm_num [exSkewedData]
  simp only [describeRows, List.map_cons, List.map_nil, List.cons.injEq, and_true]
  exact ⟨hlen, hmean, trivial, by rw [sortQ_exSkewedData]; decide, h25,
    quantile_exSkewedData_half, h75, by rw [sortQ_exSkewedData]; decide⟩

theorem sortQ_describeVals :
    sortQ [(4 : ℚ), 25, 50, 0, 0, 0, 25, 100] = [0, 0, 0, 4, 25, 25, 50, 100] := by
  decide

theorem codeMedianRow_exSkewedData : codeMedianRow exSkewedData 50 = 29/2 := by
  rw [codeMedianRow, describeVals_exSkewedData]
  simp only [quantile, sortQ_describeVals]
  norm_num [List.getD, show Int.toNat 3 = 3 from rfl]

/-- C1 (code bug at lines 121-123 of data_insights.py): the intended median
row is the 50th percentile of the data, but the source assigns
describe(include=number).median(), the median taken over the eight describe
statistics of each column (and likewise skew and kurtosis are taken over the
describe statistics rather than the data). On the column 0, 0, 0, 100, whose
sample standard deviation is exactly 50 (certified by the first conjunct), the
50 percent row is 0 while the printed median row is 14.5, so the median row
differs from the 50 percent row and from the median of the data. -/
theorem numeric_summary_median_row_bug :
    (50 : ℚ) ^ 2 = sampleVar exSkewedData ∧ (0 : ℚ) ≤ 50 ∧
    quantile exSkewedData (1/2) = 0 ∧
    codeMedianRow exSkewedData 50 = 29/2 ∧
    codeMedianRow exSkewedData 50 ≠ quantile exSkewedData (1/2) := by
  refine ⟨by rw [sampleVar_exSkewedData]; norm_num, by norm_num,
    quantile_exSkewedData_half, codeMedianRow_exSkewedData, ?_⟩
  rw [codeMedianRow_exSkewedData, quantile_exSkewedData_half]
  norm_num

end Insights
